import Mathlib

/-!
Verification of the portfolio presentation pipeline.

Shallow embedding of the data-loading layer (`src/utils/dataLoader.ts`),
the Hero counter animation and number formatting (`HeroSection`), the
scroll coordinator (`App.handleScroll`), and the click-toggled selection
state of the Metrics/Architecture/Timeline sections.

Modelling conventions for the JavaScript source:
- an absent / `undefined` / `null` field is `Option.none` (or `JVal.vnone`
  in the dynamic-value embedding);
- `x || y` yields `x` when `x` is truthy, else `y`; `cond ? a : b` tests
  JS truthiness (the empty string, `0` and `undefined` are falsy; every
  array and object, including the empty ones, is truthy);
- property access `o.k` on `undefined` throws `TypeError` (`Except.error`);
  on any other non-object value it yields `undefined`;
- optional chaining `o?.k` yields `undefined` instead of throwing.
-/

/-! ### Timeline transformer (`loadTimeline` in `src/utils/dataLoader.ts`) -/

/-- Raw element of `timelineData.career_timeline` as consumed by
`loadTimeline`: each field may be absent. -/
structure RawTimelineItem where
  period : Option String
  event : Option String
  achievements : Option (List String)
  state : Option String
deriving Repr, DecidableEq

/-- Output shape of `loadTimeline`: the normalized event. -/
structure TimelineEvent where
  period : Option String
  event : Option String
  achievements : List String
deriving Repr, DecidableEq

/-- Embedding of the arrow function inside `loadTimeline`:
`{ period: item.period, event: item.event,
   achievements: item.achievements || (item.state ? [item.state] : []) }`.
A present `achievements` array (even `[]`) is truthy and is kept; otherwise
`item.state` is wrapped iff it is a truthy (non-empty) string. -/
def mapTimelineItem (item : RawTimelineItem) : TimelineEvent :=
  { period := item.period
    event := item.event
    achievements :=
      match item.achievements with
      | some a => a
      | none =>
        match item.state with
        | some s => if s = "" then [] else [s]
        | none => [] }

/-- Embedding of `loadTimeline`: `timelineData.career_timeline.map(...)`. -/
def loadTimeline (career_timeline : List RawTimelineItem) : List TimelineEvent :=
  career_timeline.map mapTimelineItem

/-! ### Click-toggled selection
(`setSelectedCard(selectedCard === index ? null : index)` in
`ArchitectureSection.tsx`, and likewise `setSelectedMetric` in
`MetricsSection` and `setSelectedEvent` in `TimelineSection`). -/

/-- Embedding of the click handler `selected === clicked ? null : clicked`.
`ArchitectureSection` and `TimelineSection` instantiate `α := Nat` (card /
event index); `MetricsSection` instantiates `α := String` (category title). -/
def toggleSelection {α : Type} [DecidableEq α] (selected : Option α) (clicked : α) : Option α :=
  if selected = some clicked then none else some clicked

/-- Selection state reached from the initial `useState(null)` after a
sequence of clicks. -/
def clickFold (clicks : List Nat) : Option Nat :=
  clicks.foldl toggleSelection none

/-- Item `i` renders in its expanded form exactly when the selection state
equals `some i` (the components compare `selectedCard === index`). -/
def rendersExpanded (selected : Option Nat) (i : Nat) : Prop :=
  selected = some i

/-! ### Counter animator (`HeroSection` effect in `src/components/HeroSection.tsx`) -/

/-- Number of discrete animation steps (`const steps = 60`). -/
def counterSteps : Nat := 60

/-- Embedding of `Math.min(currentStep / steps, 1)`. -/
def counterProgress (currentStep : Nat) : ℚ :=
  min ((currentStep : ℚ) / (counterSteps : ℚ)) 1

/-- Embedding of `Math.floor(progress * target)`, the value displayed for a
counter with the given target after `currentStep` timer ticks (step `0` is
the initial `useState` value, before the first tick). -/
def displayedValue (target : Nat) (currentStep : Nat) : ℤ :=
  ⌊counterProgress currentStep * (target : ℚ)⌋

/-! ### Dynamic values (the untyped result of `yaml.load`) -/

/-- Untyped value tree decoded from the YAML/JSON documents. `vnone`
stands for JavaScript `undefined` (and `null`, which the loader code
treats identically at every access it performs). -/
inductive JVal where
  | vnone : JVal
  | vstr : String → JVal
  | vnum : Int → JVal
  | vlist : List JVal → JVal
  | vobj : List (String × JVal) → JVal
deriving Repr

/-- The only exception the loader code can raise: the `TypeError` thrown
by a property access on `undefined`. The repository defines no
`DataShapeError` and the loader contains no validation code. -/
inductive JsError where
  | typeError : JsError
deriving Repr, DecidableEq

/-- JavaScript property access `v.k`: throws `TypeError` on `undefined`,
yields the field (or `undefined`) on an object, and `undefined` on any
other value. -/
def jget (v : JVal) (k : String) : Except JsError JVal :=
  match v with
  | .vnone => .error .typeError
  | .vobj fields => .ok ((fields.lookup k).getD .vnone)
  | _ => .ok .vnone

/-- JavaScript optional chaining `v?.k`: like `jget` but yields
`undefined` instead of throwing. -/
def jgetOpt (v : JVal) (k : String) : JVal :=
  match v with
  | .vnone => .vnone
  | .vobj fields => (fields.lookup k).getD .vnone
  | _ => .vnone

/-- JavaScript truthiness of a `JVal` (`0`, `""` and `undefined` are
falsy; arrays and objects, even empty, are truthy). -/
def jTruthy : JVal → Bool
  | .vnone => false
  | .vstr s => s != ""
  | .vnum n => n != 0
  | .vlist _ => true
  | .vobj _ => true

/-! ### Typed output of `loadMasterData` (`CareerData` in `src/types.ts`).
Leaf fields hold whatever dynamic value the loader copied verbatim. -/

structure CareerSummary where
  current_role : JVal
  company : JVal
  duration : JVal
  location : JVal
  elevator_pitch : JVal
deriving Repr

structure TransformationBefore where
  clusters : JVal
  deployment_method : JVal
  environment_creation_time : JVal
  aws_accounts : JVal
deriving Repr

structure TransformationAfter where
  clusters : JVal
  deployment_method : JVal
  environment_creation_time : JVal
  aws_accounts : JVal
  peak_clusters : JVal
  peak_accounts : JVal
deriving Repr

structure PlatformTransformation where
  before : TransformationBefore
  after : TransformationAfter
deriving Repr

structure B2bCli where
  description : JVal
  lines_of_code : JVal
  language : JVal
  framework : JVal
  key_features : JVal
deriving Repr

structure InfrastructureArchitecture where
  codename : JVal
  design_pattern : JVal
  problem_solved : JVal
  key_innovations : JVal
deriving Repr

structure SelfHealingSystem where
  name : JVal
  total_fixers : JVal
  configuration : JVal
deriving Repr

structure TechnicalAchievements where
  b2b_cli : B2bCli
  infrastructure_architecture : InfrastructureArchitecture
  self_healing_system : SelfHealingSystem
deriving Repr

structure ScaleMetrics where
  clusters : JVal
  aws_accounts : JVal
  developers_supported : JVal
deriving Repr

structure EfficiencyMetrics where
  environment_creation : JVal
  deployment_process : JVal
  platform_engineer_productivity : JVal
deriving Repr

structure ReliabilityMetrics where
  self_healing_patterns : JVal
deriving Repr

structure MetricsAndImpact where
  scale : ScaleMetrics
  efficiency : EfficiencyMetrics
  reliability : ReliabilityMetrics
deriving Repr

structure CareerData where
  career_summary : CareerSummary
  platform_transformation : PlatformTransformation
  technical_achievements : TechnicalAchievements
  metrics_and_impact : MetricsAndImpact
deriving Repr

/-- Embedding of `loadMasterData` in `src/utils/dataLoader.ts`: it copies
each field of the parsed document verbatim into the typed structure,
performing no validation and no defaulting. Property accesses are pure, so
the repeated path prefixes of the source (`yamlData.career_summary.…`,
`yamlData.platform_transformation.before.…`, …) are fetched once each;
every access of the source is performed, and a `TypeError` is raised
exactly when the source would throw one. Note the quirks of the source,
preserved here: `self_healing_system` is read from the document root (not
from `technical_achievements`), `metrics.scale` reuses the
`platform_transformation.after` peak numbers, `scale.developers_supported`
comes from `platform_transformation.scale`, and the efficiency block is
read from `technical_achievements.metrics_and_impact.efficiency`. -/
def loadMasterData (yamlData : JVal) : Except JsError CareerData := do
  let cs ← jget yamlData "career_summary"
  let current_role ← jget cs "current_role"
  let company ← jget cs "company"
  let duration ← jget cs "duration"
  let location ← jget cs "location"
  let elevator_pitch ← jget cs "elevator_pitch"
  let pt ← jget yamlData "platform_transformation"
  let ptBefore ← jget pt "before"
  let beforeClusters ← jget ptBefore "clusters"
  let beforeDeploy ← jget ptBefore "deployment_method"
  let beforeEnvTime ← jget ptBefore "environment_creation_time"
  let beforeAccounts ← jget ptBefore "aws_accounts"
  let ptAfter ← jget pt "after"
  let afterClusters ← jget ptAfter "clusters"
  let afterDeploy ← jget ptAfter "deployment_method"
  let afterEnvTime ← jget ptAfter "environment_creation_time"
  let afterAccounts ← jget ptAfter "aws_accounts"
  let peak_clusters ← jget ptAfter "peak_clusters"
  let peak_accounts ← jget ptAfter "peak_accounts"
  let ta ← jget yamlData "technical_achievements"
  let taB2b ← jget ta "b2b_cli"
  let b2bDescription ← jget taB2b "description"
  let lines_of_code ← jget taB2b "lines_of_code"
  let b2bLanguage ← jget taB2b "language"
  let b2bFramework ← jget taB2b "framework"
  let key_features ← jget taB2b "key_features"
  let taInfra ← jget ta "infrastructure_architecture"
  let codename ← jget taInfra "codename"
  let design_pattern ← jget taInfra "design_pattern"
  let problem_solved ← jget taInfra "problem_solved"
  let key_innovations ← jget taInfra "key_innovations"
  let shs ← jget yamlData "self_healing_system"
  let shsName ← jget shs "name"
  let total_fixers ← jget shs "total_fixers"
  let shsConfiguration ← jget shs "configuration"
  let ptScale ← jget pt "scale"
  let developers_supported ← jget ptScale "developers_supported"
  let taMi ← jget ta "metrics_and_impact"
  let taMiEff ← jget taMi "efficiency"
  let environment_creation ← jget taMiEff "environment_creation"
  let deployment_process ← jget taMiEff "deployment_process"
  let productivity ← jget taMiEff "platform_engineer_productivity"
  return {
    career_summary := {
      current_role := current_role
      company := company
      duration := duration
      location := location
      elevator_pitch := elevator_pitch }
    platform_transformation := {
      before := {
        clusters := beforeClusters
        deployment_method := beforeDeploy
        environment_creation_time := beforeEnvTime
        aws_accounts := beforeAccounts }
      after := {
        clusters := afterClusters
        deployment_method := afterDeploy
        environment_creation_time := afterEnvTime
        aws_accounts := afterAccounts
        peak_clusters := peak_clusters
        peak_accounts := peak_accounts } }
    technical_achievements := {
      b2b_cli := {
        description := b2bDescription
        lines_of_code := lines_of_code
        language := b2bLanguage
        framework := b2bFramework
        key_features := key_features }
      infrastructure_architecture := {
        codename := codename
        design_pattern := design_pattern
        problem_solved := problem_solved
        key_innovations := key_innovations }
      self_healing_system := {
        name := shsName
        total_fixers := total_fixers
        configuration := shsConfiguration } }
    metrics_and_impact := {
      scale := {
        clusters := peak_clusters
        aws_accounts := peak_accounts
        developers_supported := developers_supported }
      efficiency := {
        environment_creation := environment_creation
        deployment_process := deployment_process
        platform_engineer_productivity := productivity }
      reliability := {
        self_healing_patterns := total_fixers } } }

/-- Values printed by the two `console.log` debug lines at the top of
`loadMasterData` (`yamlData.technical_achievements?.b2b_cli?.lines_of_code`
and `yamlData.platform_transformation?.after?.peak_clusters`). The first
access of each chain is a plain one and throws on an `undefined` document;
every later link is optional chaining. -/
def debugLogValues (yamlData : JVal) : Except JsError (List JVal) := do
  let ta ← jget yamlData "technical_achievements"
  let pt ← jget yamlData "platform_transformation"
  return [jgetOpt (jgetOpt ta "b2b_cli") "lines_of_code",
          jgetOpt (jgetOpt pt "after") "peak_clusters"]

/-- One invocation of `loadMasterData` including its only side effect, the
console log: the ambient console state is threaded explicitly. `parse`
stands for the (pure) `yaml.load` of the `js-yaml` library applied to the
imported document text. -/
def loadMasterDataCall (parse : String → JVal) (text : String)
    (console : List JVal) : List JVal × Except JsError CareerData :=
  let yamlData := parse text
  match debugLogValues yamlData with
  | .error e => (console, .error e)
  | .ok logged => (console ++ logged, loadMasterData yamlData)

/-! ### Hero section helpers (`src/components/HeroSection.tsx`) -/

/-- Embedding of the fixers animation target
`data.technical_achievements.self_healing_system?.total_fixers || 31`:
the record may be absent per the optional chain; a falsy `total_fixers`
(absent, or the number `0`) falls back to `31`. -/
def fixersTarget (self_healing_system : Option SelfHealingSystem) : JVal :=
  let tf := match self_healing_system with
            | some r => r.total_fixers
            | none => JVal.vnone
  if jTruthy tf then tf else .vnum 31

/-- Digit grouping of `Number.prototype.toLocaleString()`, modelled for a
comma-grouping locale (the thousands-separator formatting the code relies
on): working over the reversed digit list, a separator is inserted after
every third digit. -/
def groupRev : List Char → List Char
  | a :: b :: c :: d :: rest => a :: b :: c :: ',' :: groupRev (d :: rest)
  | l => l

/-- Embedding of `num.toLocaleString()` for an integer. -/
def toLocaleString (n : Int) : String :=
  (if n < 0 then "-" else "") ++ String.mk (groupRev (toString n.natAbs).toList.reverse).reverse

/-- Embedding of `formatNumber` in `HeroSection.tsx`:
`num >= lines_of_code` renders `(num / 1000).toFixed(0) + 'k'` (`toFixed`
rounds to the nearest integer, half up), otherwise `num.toLocaleString()`.
`lines_of_code` is `data.technical_achievements.b2b_cli.lines_of_code`,
the largest tracked magnitude. -/
def formatNumber (lines_of_code : Int) (num : Int) : String :=
  if num ≥ lines_of_code then toString (round ((num : ℚ) / 1000)) ++ "k"
  else toLocaleString num

/-! ### Scroll coordinator (`handleScroll` in `src/App.tsx`) -/

/-- The hardcoded array `['hero', 'timeline', 'metrics', 'architecture',
'contact']` iterated by `handleScroll`. -/
def sectionsArray : List String :=
  ["hero", "timeline", "metrics", "architecture", "contact"]

/-- The order in which `App` renders the sections (hence their document
order, top to bottom): `HeroSection`, `MetricsSection`, `TimelineSection`,
`ArchitectureSection`, `ContactSection`; `Navigation` lists its items in
this same order. -/
def renderOrder : List String :=
  ["hero", "metrics", "timeline", "architecture", "contact"]

/-- The loop body of `handleScroll` on an already-reversed candidate list:
skip a section whose element is missing (`offsetTop` yields `none`),
otherwise report the first section whose `offsetTop` is at or above the
threshold (`break`). -/
def findActive (offsetTop : String → Option ℚ) (scrollPosition : ℚ) :
    List String → Option String
  | [] => none
  | s :: rest =>
    match offsetTop s with
    | some t =>
      if t ≤ scrollPosition then some s
      else findActive offsetTop scrollPosition rest
    | none => findActive offsetTop scrollPosition rest

/-- Embedding of `handleScroll`: the threshold is
`window.scrollY + window.innerHeight / 3`; the `for` loop runs over
`sectionsArray` from the last index down to `0`; if no section matches,
`setActiveSection` is never called and the active section is unchanged. -/
def handleScroll (offsetTop : String → Option ℚ) (scrollY innerHeight : ℚ)
    (activeSection : String) : String :=
  let scrollPosition := scrollY + innerHeight / 3
  match findActive offsetTop scrollPosition sectionsArray.reverse with
  | some s => s
  | none => activeSection

/-- Modelled from the spec: "a section becomes active when the user's
scroll position (plus one-third of the viewport height) has passed that
section's top boundary; among all sections satisfying this, the last one
in document order wins". Document order is `renderOrder`. -/
def specActiveSection (offsetTop : String → Option ℚ)
    (scrollY innerHeight : ℚ) : Option String :=
  let scrollPosition := scrollY + innerHeight / 3
  (renderOrder.filter (fun s =>
    match offsetTop s with
    | some t => decide (t ≤ scrollPosition)
    | none => false)).getLast?

/-- Section offsets consistent with the document order rendered by `App`:
normal flow lays the five sections out top to bottom. -/
def exampleOffsetTop (s : String) : Option ℚ :=
  if s = "hero" then some 0
  else if s = "metrics" then some 800
  else if s = "timeline" then some 1600
  else if s = "architecture" then some 2400
  else if s = "contact" then some 3200
  else none

/-! ### Sample documents (shaped like `data/master-data.yaml`) -/

/-- Sample `platform_transformation` section. -/
def samplePT : JVal :=
  .vobj [("before", .vobj [("clusters", .vnum 1),
                           ("deployment_method", .vstr "manual"),
                           ("environment_creation_time", .vstr "months"),
                           ("aws_accounts", .vnum 3)]),
         ("after", .vobj [("clusters", .vnum 42),
                          ("deployment_method", .vstr "GitOps"),
                          ("environment_creation_time", .vstr "hours"),
                          ("aws_accounts", .vnum 36),
                          ("peak_clusters", .vnum 67),
                          ("peak_accounts", .vnum 36)]),
         ("scale", .vobj [("developers_supported", .vnum 100)])]

/-- Sample `technical_achievements` section. -/
def sampleTA : JVal :=
  .vobj [("b2b_cli", .vobj [("description", .vstr "orchestration CLI"),
                            ("lines_of_code", .vnum 100000),
                            ("language", .vstr "Python"),
                            ("framework", .vstr "Typer"),
                            ("key_features", .vlist [.vstr "self-healing"])]),
         ("infrastructure_architecture",
          .vobj [("codename", .vstr "GreenPrint"),
                 ("design_pattern", .vstr "loosely coupled stacks"),
                 ("problem_solved", .vstr "HA/DR"),
                 ("key_innovations", .vlist [.vstr "blue-green"])]),
         ("metrics_and_impact",
          .vobj [("efficiency",
                  .vobj [("environment_creation", .vstr "80x faster"),
                         ("deployment_process", .vstr "single file"),
                         ("platform_engineer_productivity", .vstr "10x")])])]

/-- Sample root-level `self_healing_system` section. -/
def sampleSHS : JVal :=
  .vobj [("name", .vstr "auto-fixers"),
         ("total_fixers", .vnum 31),
         ("configuration", .vstr "yaml")]

/-- A document with the given `career_summary` fields and well-formed
remaining sections. -/
def sampleDocWith (summary : List (String × JVal)) : JVal :=
  .vobj [("career_summary", .vobj summary),
         ("platform_transformation", samplePT),
         ("technical_achievements", sampleTA),
         ("self_healing_system", sampleSHS)]

/-- A `career_summary` in which the required field `current_role` is
absent. -/
def sampleSummaryNoRole : List (String × JVal) :=
  [("company", .vstr "Las Vegas Sands"),
   ("duration", .vstr "3+ years"),
   ("location", .vstr "Remote"),
   ("elevator_pitch", .vstr "Platform engineering at scale")]

/-! ## Claims -/

/-- Claim C4: for every target integer `T ≥ 0`, the counter animator's
sequence of displayed values is non-decreasing, starts at `0` (the initial
state, step `0`), and its final value (step `60`) equals exactly `T`;
each displayed value is `⌊progress * T⌋` with `progress = currentStep/steps`
clamped to `[0, 1]`. -/
theorem counter_animator_spec (T : Nat) :
    displayedValue T 0 = 0 ∧
    (∀ i j : Nat, i ≤ j → displayedValue T i ≤ displayedValue T j) ∧
    displayedValue T counterSteps = (T : ℤ) := by
  have hp0 : counterProgress 0 = 0 := by
    unfold counterProgress counterSteps
    rw [Nat.cast_zero, zero_div]
    exact min_eq_left (by norm_num)
  have hp1 : counterProgress counterSteps = 1 := by
    unfold counterProgress
    rw [div_self (by unfold counterSteps; norm_num)]
    exact min_self 1
  refine ⟨?_, ?_, ?_⟩
  · simp [displayedValue, hp0]
  · intro i j hij
    have hp : counterProgress i ≤ counterProgress j := by
      unfold counterProgress
      have hd : (i : ℚ) / (counterSteps : ℚ) ≤ (j : ℚ) / (counterSteps : ℚ) := by
        gcongr
      exact min_le_min hd le_rfl
    exact Int.floor_le_floor (mul_le_mul_of_nonneg_right hp (by positivity))
  · simp [displayedValue, hp1, Int.floor_natCast]

/-- Witness for `counter_animator_spec` at target `7`, steps `2 ≤ 5`. -/
theorem counter_animator_spec_witness :
    displayedValue 7 0 = 0 ∧ (2 ≤ 5 ∧ displayedValue 7 2 ≤ displayedValue 7 5) ∧
    displayedValue 7 counterSteps = (7 : ℤ) :=
  ⟨(counter_animator_spec 7).1,
   ⟨by decide, (counter_animator_spec 7).2.1 2 5 (by decide)⟩,
   (counter_animator_spec 7).2.2⟩

/-- Claim C10: `loadTimeline` is total over the presence or absence of
`achievements` and `state`: a raw event where `achievements` is absent and
`state` is absent or the empty (falsy) string is transformed, without any
error, into an event whose `achievements` list is empty — the transformer
does not guarantee the at-least-one-achievement shape. -/
theorem loadTimeline_total_missing (item : RawTimelineItem)
    (h1 : item.achievements = none)
    (h2 : item.state = none ∨ item.state = some "") :
    loadTimeline [item] =
      [{ period := item.period, event := item.event, achievements := [] }] := by
  rcases h2 with h2 | h2 <;> simp [loadTimeline, mapTimelineItem, h1, h2]

/-- Witness for `loadTimeline_total_missing` on an event with an empty
`state` string. -/
theorem loadTimeline_total_missing_witness :
    loadTimeline [⟨some "2024", some "Scale out", none, some ""⟩] =
      [{ period := some "2024", event := some "Scale out", achievements := [] }] :=
  loadTimeline_total_missing ⟨some "2024", some "Scale out", none, some ""⟩ rfl (Or.inr rfl)

/-- Counterexample to claim C2 as stated: on an event with neither
`achievements` nor `state`, `loadTimeline` does not fail with a
`DataShapeError` (no such error exists in the code) — it produces an
output event. -/
theorem loadTimeline_missing_both_counterexample :
    loadTimeline [⟨some "2022", some "Launch", none, none⟩] =
      [{ period := some "2022", event := some "Launch", achievements := [] }] ∧
    (loadTimeline [⟨some "2022", some "Launch", none, none⟩]).length = 1 :=
  ⟨rfl, rfl⟩

/-- Claim C2 (amended): for every raw timeline event with neither an
`achievements` list nor a `state` string, `loadTimeline` does not fail; it
produces an event whose `achievements` list is empty. -/
theorem loadTimeline_missing_both_yields_event (item : RawTimelineItem)
    (h1 : item.achievements = none) (h2 : item.state = none) :
    loadTimeline [item] =
      [{ period := item.period, event := item.event, achievements := [] }] := by
  simp [loadTimeline, mapTimelineItem, h1, h2]

/-- Witness for `loadTimeline_missing_both_yields_event`. -/
theorem loadTimeline_missing_both_yields_event_witness :
    loadTimeline [⟨some "2021", none, none, none⟩] =
      [{ period := some "2021", event := none, achievements := [] }] :=
  loadTimeline_missing_both_yields_event ⟨some "2021", none, none, none⟩ rfl rfl

/-- Counterexample to claim C5 as stated: an event lacking `achievements`
but possessing the `state` string `""` is transformed to an empty
`achievements` list, not a singleton — JavaScript `state ? [state] : []`
treats the empty string as falsy. -/
theorem loadTimeline_empty_state_counterexample :
    (mapTimelineItem ⟨some "2023 Q2", none, none, some ""⟩).achievements = [] ∧
    (mapTimelineItem ⟨some "2023 Q2", none, none, some ""⟩).achievements.length ≠ 1 :=
  ⟨rfl, by decide⟩

/-- Claim C5 (amended): for every raw timeline event lacking an
`achievements` list but possessing a non-empty `state` string,
`loadTimeline` produces an event whose `achievements` list has length
exactly `1` and contains exactly that `state` string. -/
theorem loadTimeline_wraps_nonempty_state (item : RawTimelineItem) (s : String)
    (h1 : item.achievements = none) (h2 : item.state = some s) (h3 : s ≠ "") :
    loadTimeline [item] =
      [{ period := item.period, event := item.event, achievements := [s] }] := by
  simp [loadTimeline, mapTimelineItem, h1, h2, h3]

/-- Witness for `loadTimeline_wraps_nonempty_state` on the spec's scenario
input. -/
theorem loadTimeline_wraps_nonempty_state_witness :
    loadTimeline [⟨some "2023 Q2", none, none, some "GitOps V2 begins"⟩] =
      [{ period := some "2023 Q2", event := none, achievements := ["GitOps V2 begins"] }] :=
  loadTimeline_wraps_nonempty_state ⟨some "2023 Q2", none, none, some "GitOps V2 begins"⟩
    "GitOps V2 begins" rfl rfl (by decide)

/-- Claim C8: the click-toggled selection holds at most one expanded item
at any time: clicking the selected item deselects it, clicking a different
item makes it the sole selection, and after any sequence of clicks no two
distinct indices both render expanded. -/
theorem selection_single_expansion :
    (∀ (s : Option Nat) (i : Nat), s = some i → toggleSelection s i = none) ∧
    (∀ (s : Option Nat) (i : Nat), s ≠ some i → toggleSelection s i = some i) ∧
    (∀ (clicks : List Nat) (i j : Nat),
      rendersExpanded (clickFold clicks) i → rendersExpanded (clickFold clicks) j → i = j) := by
  refine ⟨?_, ?_, ?_⟩
  · intro s i h
    simp [toggleSelection, h]
  · intro s i h
    simp [toggleSelection, h]
  · intro clicks i j hi hj
    unfold rendersExpanded at hi hj
    rw [hi] at hj
    exact Option.some.inj hj

/-- Witness for `selection_single_expansion`: collapsing card `2`,
transferring selection from `2` to `3`, and single expansion after the
click sequence `[0, 1]`. -/
theorem selection_single_expansion_witness :
    toggleSelection (some 2) 2 = none ∧
    toggleSelection (some 2) 3 = some 3 ∧ (1 : Nat) = 1 :=
  ⟨selection_single_expansion.1 (some 2) 2 rfl,
   selection_single_expansion.2.1 (some 2) 3 (by decide),
   selection_single_expansion.2.2 [0, 1] 1 1 rfl rfl⟩

/-- Claim C9: the Hero self-healing counter target falls back to `31` when
the `self_healing_system` record is absent, or its `total_fixers` field is
absent or `0` (all falsy under `|| 31`); any other numeric `total_fixers`
is used exactly; and a counter with target `31` indeed finishes at `31`
rather than failing or displaying `0`. -/
theorem hero_fixers_fallback :
    fixersTarget none = .vnum 31 ∧
    (∀ nm cfg : JVal, fixersTarget (some ⟨nm, .vnone, cfg⟩) = .vnum 31) ∧
    (∀ nm cfg : JVal, fixersTarget (some ⟨nm, .vnum 0, cfg⟩) = .vnum 31) ∧
    (∀ (nm cfg : JVal) (n : Int), n ≠ 0 → fixersTarget (some ⟨nm, .vnum n, cfg⟩) = .vnum n) ∧
    displayedValue 31 counterSteps = 31 := by
  refine ⟨rfl, fun nm cfg => rfl, fun nm cfg => rfl, ?_, ?_⟩
  · intro nm cfg n hn
    simp [fixersTarget, jTruthy, hn]
  · norm_num [displayedValue, counterProgress, counterSteps]

/-- Witness for `hero_fixers_fallback` at `total_fixers = 0` and
`total_fixers = 31`. -/
theorem hero_fixers_fallback_witness :
    fixersTarget (some ⟨.vstr "auto-fixers", .vnum 0, .vnone⟩) = .vnum 31 ∧
    fixersTarget (some ⟨.vstr "auto-fixers", .vnum 31, .vnone⟩) = .vnum 31 :=
  ⟨hero_fixers_fallback.2.2.1 (.vstr "auto-fixers") .vnone,
   hero_fixers_fallback.2.2.2.1 (.vstr "auto-fixers") .vnone 31 (by decide)⟩

/-- Claim C6: `formatNumber` renders every value at or above the loaded
`lines_of_code` magnitude as `value/1000` rounded to zero decimals followed
by `k`, and every other value with locale digit grouping; in particular,
with `lines_of_code = 100000` the Hero Lines-of-Code counter's final
displayed text (`formatNumber` of the last animated value) is `"100k"`. -/
theorem hero_loc_format :
    (∀ loc num : Int, num ≥ loc →
      formatNumber loc num = toString (round ((num : ℚ) / 1000)) ++ "k") ∧
    (∀ loc num : Int, num < loc → formatNumber loc num = toLocaleString num) ∧
    formatNumber 100000 (displayedValue 100000 counterSteps) = "100k" := by
  refine ⟨?_, ?_, ?_⟩
  · intro loc num h
    simp [formatNumber, h]
  · intro loc num h
    simp [formatNumber, not_le.mpr h]
  · have h1 : displayedValue 100000 counterSteps = 100000 := by
      norm_num [displayedValue, counterProgress, counterSteps]
    have h2 : round ((100000 : ℚ) / 1000) = 100 := by norm_num [round_eq]
    rw [h1]
    simp [formatNumber, h2]
    decide

/-- Witness for `hero_loc_format` at the threshold `100000` with one value
on each side. -/
theorem hero_loc_format_witness :
    formatNumber 100000 123456 = toString (round ((123456 : ℚ) / 1000)) ++ "k" ∧
    formatNumber 100000 12345 = toLocaleString 12345 :=
  ⟨hero_loc_format.1 100000 123456 (by decide),
   hero_loc_format.2.1 100000 12345 (by decide)⟩

/-- Claim C1 (code bug): with section offsets laid out in the document
order rendered by `App` (hero `0`, metrics `800`, timeline `1600`,
architecture `2400`, contact `3200`) and threshold `1500 + 600/3 = 1700`,
both Metrics and Timeline qualify, yet `handleScroll` reports `"metrics"`
— the last qualifying entry of its hardcoded array, which lists timeline
*before* metrics, contrary to the document (and `Navigation`) order — while
the specified rule (last qualifying section in document order) yields
`"timeline"`. -/
theorem scroll_tiebreak_bug :
    handleScroll exampleOffsetTop 1500 600 "hero" = "metrics" ∧
    specActiveSection exampleOffsetTop 1500 600 = some "timeline" ∧
    "metrics" ≠ "timeline" := by
  refine ⟨?_, ?_, by decide⟩
  · simp +decide only [handleScroll, findActive, sectionsArray, exampleOffsetTop, List.reverse]
    norm_num
  · simp +decide only [specActiveSection, renderOrder, exampleOffsetTop, List.filter]
    norm_num

/-- Claim C7: `loadMasterData` is deterministic and pure: its returned
view-model depends only on the input text (through the pure parse), not on
the ambient console state its debug logging appends to, so two invocations
on identical text — in particular one right after the other — yield equal
results. -/
theorem loadMasterData_deterministic (parse : String → JVal) (text : String)
    (console1 console2 : List JVal) :
    (loadMasterDataCall parse text console1).2 = (loadMasterDataCall parse text console2).2 ∧
    (loadMasterDataCall parse text (loadMasterDataCall parse text console1).1).2 =
      (loadMasterDataCall parse text console1).2 := by
  cases hd : debugLogValues (parse text) <;>
    simp [loadMasterDataCall, hd]

/-- Counterexample to claim C3 as stated: on a document whose required
`career_summary.current_role` field is absent, `loadMasterData` does not
fail with a `DataShapeError` (no such error exists in the code) — it
succeeds and passes the absent field through as `undefined`. -/
theorem loadMasterData_missing_field_counterexample :
    (loadMasterData (sampleDocWith sampleSummaryNoRole)).isOk = true ∧
    (loadMasterData (sampleDocWith sampleSummaryNoRole)).toOption.map
      (fun d => d.career_summary.current_role) = some JVal.vnone :=
  ⟨rfl, rfl⟩

/-- Claim C3 (amended): `loadMasterData` performs no shape validation; for
every document whose `career_summary` lacks the required `current_role`
field (other sections well-formed), it succeeds, propagating the field as
`undefined` — it neither raises a `DataShapeError` nor silently defaults
the required field to a fabricated placeholder such as `0` or `""`. -/
theorem loadMasterData_missing_field_passthrough (summary : List (String × JVal))
    (hmiss : summary.lookup "current_role" = none) :
    (loadMasterData (sampleDocWith summary)).toOption.map
      (fun d => d.career_summary.current_role) = some JVal.vnone ∧
    ∀ out : CareerData, loadMasterData (sampleDocWith summary) = .ok out →
      out.career_summary.current_role = JVal.vnone ∧
      out.career_summary.current_role ≠ .vnum 0 ∧
      out.career_summary.current_role ≠ .vstr "" := by
  have hbase :
      (loadMasterData (sampleDocWith summary)).toOption.map
        (fun d => d.career_summary.current_role) =
      some ((summary.lookup "current_role").getD JVal.vnone) := rfl
  rw [hmiss] at hbase
  refine ⟨hbase, ?_⟩
  intro out hok
  have h : (loadMasterData (sampleDocWith summary)).toOption.map
      (fun d => d.career_summary.current_role) = some out.career_summary.current_role := by
    rw [hok]
    rfl
  rw [hbase] at h
  have h3 : out.career_summary.current_role = JVal.vnone := (Option.some.inj h).symm
  refine ⟨h3, ?_, ?_⟩ <;> rw [h3] <;> intro hc <;> exact JVal.noConfusion hc

/-- Witness for `loadMasterData_missing_field_passthrough` on the concrete
document missing `current_role`. -/
theorem loadMasterData_missing_field_passthrough_witness :
    sampleSummaryNoRole.lookup "current_role" = none ∧
    (loadMasterData (sampleDocWith sampleSummaryNoRole)).toOption.map
      (fun d => d.career_summary.current_role) = some JVal.vnone :=
  ⟨rfl, (loadMasterData_missing_field_passthrough sampleSummaryNoRole rfl).1⟩
